import Mathlib

/-!
Shallow embedding of the ActronAir Neo integration core:
the vendor API client (`custom_components/actron_air_neo/api.py`),
the two climate entity adapters (`custom_components/actron/climate.py`,
`custom_components/actron_air_neo/climate.py`), the zone sensors
(`custom_components/actron/sensor.py`) and the diagnostic binary sensor
helpers (`custom_components/actronair_neo/binary_sensor.py`).

JSON documents are modelled by `JValue`; Python dicts are association
lists in insertion order; each HTTP interaction is resolved by an
`HttpOutcome` oracle passed to the embedded function, and the list of
`HttpRequest` values actually issued is returned alongside the result so
that ordering and fail-fast properties are visible in the embedding.
-/

/-- JSON-like Python values as they occur in this integration. -/
inductive JValue where
  | jNull
  | jBool (b : Bool)
  | jNum (n : Int)
  | jStr (s : String)
  | jArr (xs : List JValue)
  | jObj (fields : List (String × JValue))
deriving Repr

/-- Python truthiness of a `JValue` (used by `not self.bearer_token` and
`if status:`). -/
def pyTruthy : JValue → Bool
  | .jNull => false
  | .jBool b => b
  | .jNum n => n != 0
  | .jStr s => s != ""
  | .jArr xs => !xs.isEmpty
  | .jObj fs => !fs.isEmpty

/-- First binding of a key in a Python dict (association list). -/
def pyLookup (fs : List (String × JValue)) (k : String) : Option JValue :=
  (fs.find? (fun p => p.1 == k)).map Prod.snd

/-- Python `dict.get(k, default)`. -/
def pyGetD (fs : List (String × JValue)) (k : String) (d : JValue) : JValue :=
  (pyLookup fs k).getD d

/-- Python `d[k] = v` on an insertion-ordered dict: replace the binding in
place when the key is present, otherwise append it. -/
def pySet (fs : List (String × JValue)) (k : String) (v : JValue) :
    List (String × JValue) :=
  if (fs.find? (fun p => p.1 == k)).isSome then
    fs.map (fun p => if p.1 == k then (k, v) else p)
  else
    fs ++ [(k, v)]

/-- Same update operation for string-valued header dicts. -/
def pySetS (fs : List (String × String)) (k v : String) :
    List (String × String) :=
  if (fs.find? (fun p => p.1 == k)).isSome then
    fs.map (fun p => if p.1 == k then (k, v) else p)
  else
    fs ++ [(k, v)]

theorem pyGetD_of_lookup_none {fs : List (String × JValue)} {k : String}
    (h : pyLookup fs k = none) (d : JValue) : pyGetD fs k d = d := by
  simp [pyGetD, h]

mutual
/-- Python `==` on the modelled values: `bool` participates in numeric
equality (it is an `int` subtype).  Dicts are compared in insertion order
here; the Python comparison is order-insensitive, but every comparison the
embedded code performs is between scalars, so the difference is never
exercised. -/
def pyEq : JValue → JValue → Bool
  | .jNull, .jNull => true
  | .jBool a, .jBool b => a == b
  | .jBool a, .jNum n => (if a then (1 : Int) else 0) == n
  | .jNum n, .jBool b => n == (if b then (1 : Int) else 0)
  | .jNum a, .jNum b => a == b
  | .jStr a, .jStr b => a == b
  | .jArr xs, .jArr ys => pyEqList xs ys
  | .jObj fs, .jObj gs => pyEqObj fs gs
  | _, _ => false

def pyEqList : List JValue → List JValue → Bool
  | [], [] => true
  | x :: xs, y :: ys => pyEq x y && pyEqList xs ys
  | _, _ => false

def pyEqObj : List (String × JValue) → List (String × JValue) → Bool
  | [], [] => true
  | p :: ps, q :: qs => p.1 == q.1 && pyEq p.2 q.2 && pyEqObj ps qs
  | _, _ => false
end

mutual
/-- Python `str(...)` of a modelled value, as used by f-string
interpolation (string quoting inside containers is not reproduced; every
interpolated value in the embedded code is a scalar). -/
def pyStr : JValue → String
  | .jNull => "None"
  | .jBool true => "True"
  | .jBool false => "False"
  | .jNum n => toString n
  | .jStr s => s
  | .jArr xs => "[" ++ pyStrList xs ++ "]"
  | .jObj fs => "\x7b" ++ pyStrObj fs ++ "\x7d"

def pyStrList : List JValue → String
  | [] => ""
  | [x] => pyStr x
  | x :: xs => pyStr x ++ ", " ++ pyStrList xs

def pyStrObj : List (String × JValue) → String
  | [] => ""
  | [p] => p.1 ++ ": " ++ pyStr p.2
  | p :: ps => p.1 ++ ": " ++ pyStr p.2 ++ ", " ++ pyStrObj ps
end

/-- The exception kinds the embedded code can raise. -/
inductive ApiException where
  | authenticationError (msg : String)
  | apiError (msg : String)
  | keyError (key : String)
  | typeError (msg : String)
  | attributeError (msg : String)
deriving Repr, BEq

/-- `True` exactly for `AuthenticationError` values. -/
def isAuthError : ApiException → Bool
  | .authenticationError _ => true
  | _ => false

/-- Python `d[k]`: value of the key in a dict, `KeyError` when absent,
`TypeError` on a non-dict (string subscripts on other values). -/
def pyIndex : JValue → String → Except ApiException JValue
  | .jObj fs, k =>
    match pyLookup fs k with
    | some v => .ok v
    | none => .error (.keyError k)
  | _, _ => .error (.typeError "value is not subscriptable by a string key")

/-- Occurrence test of one string inside another (Python `in` on `str`). -/
def strOccurs (s pat : String) : Bool :=
  if pat = "" then true else (s.splitOn pat).length ≥ 2

/-- Python `k in v`: key test on dicts, membership on lists, substring
test on strings, `TypeError` otherwise. -/
def pyContains (v : JValue) (k : String) : Except ApiException Bool :=
  match v with
  | .jObj fs => .ok (pyLookup fs k).isSome
  | .jArr xs => .ok (xs.any (fun x => pyEq x (.jStr k)))
  | .jStr s => .ok (strOccurs s k)
  | _ => .error (.typeError "argument is not iterable")

/-- Python iteration `for x in v`: the elements of a list, the keys of a
dict, the characters of a string, `TypeError` otherwise. -/
def pyIter : JValue → Except ApiException (List JValue)
  | .jArr xs => .ok xs
  | .jObj fs => .ok (fs.map (fun p => .jStr p.1))
  | .jStr s => .ok (s.data.map (fun c => .jStr (String.mk [c])))
  | _ => .error (.typeError "value is not iterable")

/-- Python `v.get(k, default)`: only dicts carry the method. -/
def pyGetAttrGet (v : JValue) (k : String) (d : JValue) :
    Except ApiException JValue :=
  match v with
  | .jObj fs => .ok (pyGetD fs k d)
  | _ => .error (.attributeError "object has no attribute get")

/-! ## Vendor API client (`custom_components/actron_air_neo/api.py`) -/

/-- Modelled from the spec: `API_URL` lives in `const.py`, which is not
part of the sources; the spec only states that it is a fixed base URL, so
its concrete value is immaterial and an opaque-looking literal is used. -/
def API_URL : String := "https://nimbus.actronair.com.au"

/-- Modelled from the spec: `CMD_SET_SETTINGS` lives in `const.py`, which
is not part of the sources; the spec calls it "a fixed command-type tag"
added under the `type` key of every command envelope. -/
def CMD_SET_SETTINGS : String := "set-settings"

/-- The mutable client state of `ActronApi` (the HTTP session object
carries no modelled state). -/
structure ApiState where
  username : String
  password : String
  bearer_token : Option JValue
deriving Repr

/-- One HTTP request as handed to `session.request`. -/
structure HttpRequest where
  method : String
  url : String
  headers : List (String × String)
  data : Option (List (String × String))
  json : Option JValue
deriving Repr

/-- How the environment answers one HTTP request: a response carrying a
status code, its body text and its parsed JSON body, or an
`aiohttp.ClientError` raised during the exchange. -/
inductive HttpOutcome where
  | response (status : Nat) (text : String) (json : JValue)
  | clientError (msg : String)
deriving Repr

/-- Python `not self.bearer_token` (falsy test on the stored token). -/
def bearerFalsy (st : ApiState) : Bool :=
  match st.bearer_token with
  | none => true
  | some v => !pyTruthy v

/-- The error message built for a non-200 response. -/
def apiFailMsg (status : Nat) (text : String) : String :=
  "API request failed: " ++ toString status ++ ", " ++ text

/-- The error message built for a network-level client exception. -/
def netErrMsg (msg : String) : String :=
  "Network error during API request: " ++ msg

/-- `ActronApi._make_request`: fail fast with `AuthenticationError` when
authentication is required but no (truthy) bearer token is held, otherwise
inject the bearer header, issue the request, parse JSON on 200, raise
`ApiError` with status and body text on any other status, and translate a
client exception into `ApiError`.  The first component lists the requests
actually issued. -/
def _make_request (st : ApiState) (url method : String)
    (headers : Option (List (String × String)))
    (data : Option (List (String × String)))
    (json : Option JValue) (auth_required : Bool) (outcome : HttpOutcome) :
    List HttpRequest × Except ApiException JValue :=
  if auth_required && bearerFalsy st then
    ([], .error (.authenticationError "Not authenticated"))
  else
    let hs := headers.getD []
    let hs :=
      if auth_required then
        pySetS hs "Authorization"
          ("Bearer " ++ pyStr (st.bearer_token.getD .jNull))
      else hs
    let req : HttpRequest := ⟨method, url, hs, data, json⟩
    match outcome with
    | .response status text jsonBody =>
      if status = 200 then ([req], .ok jsonBody)
      else ([req], .error (.apiError (apiFailMsg status text)))
    | .clientError msg => ([req], .error (.apiError (netErrMsg msg)))

/-- `ActronApi._request_pairing_token`. -/
def _request_pairing_token (st : ApiState) (outcome : HttpOutcome) :
    List HttpRequest × Except ApiException JValue :=
  let url := API_URL ++ "/api/v0/client/user-devices"
  let headers := [("Content-Type", "application/x-www-form-urlencoded")]
  let data :=
    [("username", st.username), ("password", st.password),
     ("client", "ios"), ("deviceName", "HomeAssistant"),
     ("deviceUniqueIdentifier", "HomeAssistant")]
  match _make_request st url "POST" (some headers) (some data) none false outcome with
  | (tr, .error e) => (tr, .error e)
  | (tr, .ok response) => (tr, pyIndex response "pairingToken")

/-- `ActronApi._request_bearer_token`. -/
def _request_bearer_token (st : ApiState) (pairing_token : JValue)
    (outcome : HttpOutcome) : List HttpRequest × Except ApiException JValue :=
  let url := API_URL ++ "/api/v0/oauth/token"
  let headers := [("Content-Type", "application/x-www-form-urlencoded")]
  let data :=
    [("grant_type", "refresh_token"), ("refresh_token", pyStr pairing_token),
     ("client_id", "app")]
  match _make_request st url "POST" (some headers) (some data) none false outcome with
  | (tr, .error e) => (tr, .error e)
  | (tr, .ok response) => (tr, pyIndex response "access_token")

/-- `ActronApi.authenticate`: the pairing-token exchange, then the
bearer-token exchange; `self.bearer_token` is assigned only after both
steps returned.  The `try`/`except` wrapper logs and re-raises the
original exception, so errors pass through unchanged.  Returns the client
state after the call, the issued requests and the outcome. -/
def authenticate (st : ApiState) (o1 o2 : HttpOutcome) :
    ApiState × List HttpRequest × Except ApiException Unit :=
  match _request_pairing_token st o1 with
  | (tr1, .error e) => (st, tr1, .error e)
  | (tr1, .ok pairing_token) =>
    match _request_bearer_token st pairing_token o2 with
    | (tr2, .error e) => (st, tr1 ++ tr2, .error e)
    | (tr2, .ok tok) =>
      ({ st with bearer_token := some tok }, tr1 ++ tr2, .ok ())

/-- One parsed device descriptor, as appended by `get_devices`. -/
structure Device where
  serial : JValue
  name : JValue
  type : JValue
deriving Repr

/-- The body of the `get_devices` loop for one entry of the
`_embedded.ac-system` list. -/
def parse_system (system : JValue) : Except ApiException Device := do
  let serial ← pyGetAttrGet system "serial" (.jStr "Unknown")
  let name ← pyGetAttrGet system "description" (.jStr "Unknown Device")
  let ty ← pyGetAttrGet system "type" (.jStr "Unknown")
  pure ⟨serial, name, ty⟩

/-- `ActronApi.get_devices`. -/
def get_devices (st : ApiState) (outcome : HttpOutcome) :
    List HttpRequest × Except ApiException (List Device) :=
  let url := API_URL ++ "/api/v0/client/ac-systems?includeNeo=true"
  match _make_request st url "GET" none none none true outcome with
  | (tr, .error e) => (tr, .error e)
  | (tr, .ok response) =>
    (tr, do
      let hasEmbedded ← pyContains response "_embedded"
      if hasEmbedded then
        let embedded ← pyIndex response "_embedded"
        let hasSystems ← pyContains embedded "ac-system"
        if hasSystems then
          let systemsVal ← pyIndex embedded "ac-system"
          let systems ← pyIter systemsVal
          systems.mapM parse_system
        else pure []
      else pure [])

/-- `ActronApi.get_ac_status`. -/
def get_ac_status (st : ApiState) (serial : String) (outcome : HttpOutcome) :
    List HttpRequest × Except ApiException JValue :=
  let url := API_URL ++ "/api/v0/client/ac-systems/status/latest?serial=" ++ serial
  _make_request st url "GET" none none none true outcome

/-- The command envelope built by `send_command`:
`data = {"command": {**command, "type": CMD_SET_SETTINGS}}`. -/
def commandEnvelope (command : List (String × JValue)) : JValue :=
  .jObj [("command", .jObj (pySet command "type" (.jStr CMD_SET_SETTINGS)))]

/-- `ActronApi.send_command`. -/
def send_command (st : ApiState) (serial : String)
    (command : List (String × JValue)) (outcome : HttpOutcome) :
    List HttpRequest × Except ApiException JValue :=
  let url := API_URL ++ "/api/v0/client/ac-systems/cmds/send?serial=" ++ serial
  _make_request st url "POST" none none (some (commandEnvelope command)) true outcome

/-! ## Climate entity adapters and the coordinator command path -/

/-- Host-framework HVAC mode vocabulary used by both climate entities. -/
inductive HVACMode where
  | off
  | auto
  | cool
  | heat
  | fan_only
deriving Repr, DecidableEq

/-- Observable effects of a coordinator-level command operation:
a command posted through the API client, or a refresh request. -/
inductive Event where
  | sendCommand (serial : String) (fields : List (String × JValue))
  | requestRefresh
deriving Repr

/-- `True` exactly for `sendCommand` events. -/
def isSendCommand : Event → Bool
  | .sendCommand _ _ => true
  | _ => false

/-- `True` exactly for `requestRefresh` events. -/
def isRefresh : Event → Bool
  | .requestRefresh => true
  | _ => false

/-- No `sendCommand` event occurs after a `requestRefresh` event. -/
def noSendAfterRefresh : List Event → Bool
  | [] => true
  | .requestRefresh :: rest => rest.all (fun e => !isSendCommand e)
  | _ :: rest => noSendAfterRefresh rest

/-- Exceptions visible at the entity layer: an API client exception or a
failure of the refresh that follows a command. -/
inductive EntityExc where
  | api (e : ApiException)
  | refresh (msg : String)
deriving Repr, BEq

/-- Helper shared by the zoned entity methods: emit the refresh request
that follows the already-emitted events and deliver its outcome. -/
def thenRefresh (evs : List Event) (refreshOutcome : Except EntityExc Unit) :
    List Event × Except EntityExc Unit :=
  (evs ++ [.requestRefresh],
    match refreshOutcome with
    | .ok _ => .ok ()
    | .error e => .error e)

/-- The `main` group of the zoned coordinator snapshot
(`custom_components/actron/climate.py` reads `is_on`, `mode` as the
vendor string, `fan_mode` and `away_mode` off it). -/
structure ZonedMain where
  is_on : Bool
  mode : String
  fan_mode : String
  away_mode : Bool
deriving Repr

/-- The `HVAC_MODES` table of `custom_components/actron/climate.py`,
mapping the vendor mode strings to host modes. -/
def HVAC_MODES : List (String × HVACMode) :=
  [("OFF", .off), ("AUTO", .auto), ("COOL", .cool), ("HEAT", .heat),
   ("FAN", .fan_only)]

/-- `ActronClimate.hvac_mode` of the zoned entity: `OFF` while the system
is off, otherwise the table lookup with `OFF` as the fallback. -/
def zoned_hvac_mode (main : ZonedMain) : HVACMode :=
  if !main.is_on then .off
  else ((HVAC_MODES.find? (fun p => p.1 == main.mode)).map Prod.snd).getD .off

/-- `next(k for k, v in HVAC_MODES.items() if v == hvac_mode)`: the first
vendor string mapped to the host mode (every host mode is mapped, so the
fallback arm is unreachable). -/
def hvacModeKey (m : HVACMode) : String :=
  ((HVAC_MODES.find? (fun p => p.2 == m)).map Prod.fst).getD "OFF"

/-- `ActronClimate.async_set_temperature` of the zoned entity
(`custom_components/actron/climate.py`): choose the setpoint field from
the current mode, send it, then request a refresh; the surrounding
`try`/`except` logs and re-raises, so failures pass through. -/
def zoned_set_temperature (device_id zone_id : String) (main : ZonedMain)
    (temp : Option JValue) (sendOutcome : Except ApiException JValue)
    (refreshOutcome : Except EntityExc Unit) :
    List Event × Except EntityExc Unit :=
  match temp with
  | none => thenRefresh [] refreshOutcome
  | some t =>
    if zoned_hvac_mode main = .cool then
      let ev := Event.sendCommand device_id
        [("RemoteZoneInfo[" ++ zone_id ++ "].TemperatureSetpoint_Cool_oC", t)]
      match sendOutcome with
      | .error e => ([ev], .error (.api e))
      | .ok _ => thenRefresh [ev] refreshOutcome
    else if zoned_hvac_mode main = .heat then
      let ev := Event.sendCommand device_id
        [("RemoteZoneInfo[" ++ zone_id ++ "].TemperatureSetpoint_Heat_oC", t)]
      match sendOutcome with
      | .error e => ([ev], .error (.api e))
      | .ok _ => thenRefresh [ev] refreshOutcome
    else
      thenRefresh [] refreshOutcome

/-- `ActronClimate.async_set_hvac_mode` of the zoned entity. -/
def zoned_set_hvac_mode (device_id : String) (hvac_mode : HVACMode)
    (sendOutcome : Except ApiException JValue)
    (refreshOutcome : Except EntityExc Unit) :
    List Event × Except EntityExc Unit :=
  let fields :=
    if hvac_mode = .off then [("UserAirconSettings.isOn", JValue.jBool false)]
    else
      [("UserAirconSettings.isOn", JValue.jBool true),
       ("UserAirconSettings.Mode", JValue.jStr (hvacModeKey hvac_mode))]
  let ev := Event.sendCommand device_id fields
  match sendOutcome with
  | .error e => ([ev], .error (.api e))
  | .ok _ => thenRefresh [ev] refreshOutcome

/-- `ActronClimate.async_set_fan_mode` of the zoned entity. -/
def zoned_set_fan_mode (device_id : String) (fan_mode : String)
    (sendOutcome : Except ApiException JValue)
    (refreshOutcome : Except EntityExc Unit) :
    List Event × Except EntityExc Unit :=
  let ev := Event.sendCommand device_id
    [("UserAirconSettings.FanMode", JValue.jStr fan_mode)]
  match sendOutcome with
  | .error e => ([ev], .error (.api e))
  | .ok _ => thenRefresh [ev] refreshOutcome

/-- The `main` group of the single-entity coordinator snapshot
(`custom_components/actron_air_neo/climate.py` stores the host mode
directly). -/
structure NeoMain where
  is_on : Bool
  mode : HVACMode
deriving Repr

/-- `ActronClimate.hvac_mode` of the single entity. -/
def neo_hvac_mode (main : NeoMain) : HVACMode :=
  if !main.is_on then .off else main.mode

/-- Modelled from the spec: `ActronDataCoordinator.send_command` lives in
`coordinator.py`, which is not part of the sources.  Per the spec it
"delegates to the API client using the bound device serial, then requests
a refresh"; "a refresh failure after a successful command is reported but
does not roll back the command". -/
def coordinator_send_command (device_id : String)
    (fields : List (String × JValue)) (sendOutcome : Except ApiException JValue)
    (refreshOutcome : Except EntityExc Unit) :
    List Event × Except EntityExc Unit :=
  let ev := Event.sendCommand device_id fields
  match sendOutcome with
  | .error e => ([ev], .error (.api e))
  | .ok _ => thenRefresh [ev] refreshOutcome

/-- Modelled from the spec: `ActronDataCoordinator.set_temperature(value,
is_cooling)` lives in `coordinator.py`, which is not part of the sources.
Per the spec it "builds the vendor-specific field-path mapping for the
intended change and calls `send_command`", choosing the heat or cool
setpoint field from the `is_cooling` flag; the field names follow the
testable properties of the spec. -/
def coordinator_set_temperature (device_id : String) (temp : JValue)
    (is_cooling : Bool) (sendOutcome : Except ApiException JValue)
    (refreshOutcome : Except EntityExc Unit) :
    List Event × Except EntityExc Unit :=
  let field :=
    if is_cooling then "TemperatureSetpoint_Cool_oC"
    else "TemperatureSetpoint_Heat_oC"
  coordinator_send_command device_id [(field, temp)] sendOutcome refreshOutcome

/-- `ActronClimate.async_set_temperature` of the single entity
(`custom_components/actron_air_neo/climate.py`): return with no effect
when no temperature was passed, otherwise delegate to the coordinator
with `is_cooling` true exactly when the current mode is cooling. -/
def neo_set_temperature (device_id : String) (main : NeoMain)
    (temp : Option JValue) (sendOutcome : Except ApiException JValue)
    (refreshOutcome : Except EntityExc Unit) :
    List Event × Except EntityExc Unit :=
  match temp with
  | none => ([], .ok ())
  | some t =>
    let is_cooling := neo_hvac_mode main = .cool
    coordinator_set_temperature device_id t is_cooling sendOutcome refreshOutcome

/-! ## Zone sensors (`custom_components/actron/sensor.py`) -/

/-- The `for zone in zones` scan of a sensor update: the first zone dict
whose `zoneId` equals the id of the sensor contributes
`zone.get(<field>)`, and scanning stops there; a non-dict entry raises
before any assignment happens. -/
def zone_scan (zone_id : JValue) (field : String) :
    List JValue → Except ApiException (Option JValue)
  | [] => .ok none
  | z :: rest =>
    match z with
    | .jObj fs =>
      if pyEq (pyGetD fs "zoneId" .jNull) zone_id then
        .ok (some (pyGetD fs field .jNull))
      else zone_scan zone_id field rest
    | _ => .error (.attributeError "object has no attribute get")

/-- `async_update` shared by the three zone sensor classes (their bodies
are textually identical up to the read field): fetch the status, and
inside a `try`/`except Exception` that logs without re-raising, scan the
zones for the matching id and assign the read field to `self._state`.
Any exception — from the fetch itself or from the scan — leaves the
previously held state unchanged, and none escapes to the caller (hence
the exception-free return type). -/
def sensor_update (state : JValue) (zone_id : JValue) (field : String)
    (statusOutcome : Except ApiException JValue) : JValue :=
  match statusOutcome with
  | .error _ => state
  | .ok status =>
    if pyTruthy status then
      match status with
      | .jObj fs =>
        match pyIter (pyGetD fs "zones" (.jArr [])) with
        | .error _ => state
        | .ok zones =>
          match zone_scan zone_id field zones with
          | .error _ => state
          | .ok none => state
          | .ok (some v) => v
      | _ => state
    else state

/-- `ActronNeoZoneTemperatureSensor.async_update`. -/
def temperature_sensor_update (state zone_id : JValue)
    (statusOutcome : Except ApiException JValue) : JValue :=
  sensor_update state zone_id "current_temperature" statusOutcome

/-- `ActronNeoZoneHumiditySensor.async_update`. -/
def humidity_sensor_update (state zone_id : JValue)
    (statusOutcome : Except ApiException JValue) : JValue :=
  sensor_update state zone_id "humidity" statusOutcome

/-- `ActronNeoZoneBatterySensor.async_update`. -/
def battery_sensor_update (state zone_id : JValue)
    (statusOutcome : Except ApiException JValue) : JValue :=
  sensor_update state zone_id "battery_level" statusOutcome

/-! ## Uptime formatting
(`custom_components/actronair_neo/binary_sensor.py`) -/

/-- `isinstance(seconds, (int, float))`: Python `bool` is an `int`
subtype, so it passes the check (true floats are outside the modelled
value domain; on them the source merely truncates with `int(...)`). -/
def pyIsNumber : JValue → Bool
  | .jNum _ => true
  | .jBool _ => true
  | _ => false

/-- `int(seconds)` on a value that passed the `isinstance` check. -/
def pyIntVal : JValue → Int
  | .jNum n => n
  | .jBool b => if b then 1 else 0
  | _ => 0

/-- `ActronSystemStatusSensor._format_uptime`: `"Unknown"` unless the
input is a non-negative number, otherwise the `divmod` decomposition into
days, hours, minutes and seconds rendered with zero parts dropped, the
seconds part being kept whenever nothing else was emitted. -/
def _format_uptime (v : JValue) : String :=
  if pyIsNumber v = false ∨ pyIntVal v < 0 then "Unknown"
  else
    let t := (pyIntVal v).toNat
    let days := t / 86400
    let r := t % 86400
    let hours := r / 3600
    let r2 := r % 3600
    let minutes := r2 / 60
    let seconds := r2 % 60
    let parts : List String := if days > 0 then [toString days ++ "d"] else []
    let parts := parts ++ (if hours > 0 then [toString hours ++ "h"] else [])
    let parts := parts ++ (if minutes > 0 then [toString minutes ++ "m"] else [])
    let parts :=
      parts ++ (if seconds > 0 ∨ parts = [] then [toString seconds ++ "s"] else [])
    String.intercalate " " parts

/-! ## Theorems -/

/-- The second string occurs contiguously inside the first. -/
def ContainsSub (msg sub : String) : Prop :=
  ∃ a b : List Char, msg.data = a ++ sub.data ++ b

/-- C1: for every call of `_make_request` with `auth_required` true — and
hence for `get_devices`, `get_ac_status` and `send_command` — while the
client holds no bearer token, the call raises `AuthenticationError` and
the list of issued HTTP requests is empty: no request reaches the
server. -/
theorem c1_fail_fast_without_token (st : ApiState)
    (h : st.bearer_token = none) :
    (∀ url method headers data json outcome,
      _make_request st url method headers data json true outcome =
        ([], .error (.authenticationError "Not authenticated"))) ∧
    (∀ outcome, get_devices st outcome =
        ([], .error (.authenticationError "Not authenticated"))) ∧
    (∀ serial outcome, get_ac_status st serial outcome =
        ([], .error (.authenticationError "Not authenticated"))) ∧
    (∀ serial command outcome, send_command st serial command outcome =
        ([], .error (.authenticationError "Not authenticated"))) := by
  have hb : bearerFalsy st = true := by simp [bearerFalsy, h]
  refine ⟨?_, ?_, ?_, ?_⟩ <;> intros <;>
    simp [_make_request, get_devices, get_ac_status, send_command, hb]

/-- Witness for C1 at a concrete unauthenticated client. -/
theorem c1_fail_fast_without_token_witness :
    get_devices ⟨"user", "pw", none⟩ (.response 200 "" .jNull) =
      ([], .error (.authenticationError "Not authenticated")) :=
  (c1_fail_fast_without_token ⟨"user", "pw", none⟩ rfl).2.1
    (.response 200 "" .jNull)

/-- C2: for every non-200 response `_make_request` raises `ApiError`
whose message contains the numeric status code and the response body
text, and every network-level client exception is translated into an
`ApiError`. -/
theorem c2_error_translation (st : ApiState) (url method : String)
    (headers : Option (List (String × String)))
    (data : Option (List (String × String))) (json : Option JValue)
    (auth_required : Bool)
    (hok : (auth_required && bearerFalsy st) = false) :
    (∀ status text jsonBody, status ≠ 200 →
      (_make_request st url method headers data json auth_required
          (.response status text jsonBody)).2 =
        .error (.apiError (apiFailMsg status text)) ∧
      ContainsSub (apiFailMsg status text) (toString status) ∧
      ContainsSub (apiFailMsg status text) text) ∧
    (∀ msg,
      (_make_request st url method headers data json auth_required
          (.clientError msg)).2 = .error (.apiError (netErrMsg msg))) := by
  constructor
  · intro status text jsonBody hne
    refine ⟨?_, ⟨"API request failed: ".data, (", " ++ text).data, ?_⟩,
      ⟨("API request failed: " ++ toString status ++ ", ").data, [], ?_⟩⟩
    · simp [_make_request, hok, hne]
    · simp [apiFailMsg, String.data_append, List.append_assoc]
    · simp [apiFailMsg, String.data_append, List.append_assoc]
  · intro msg
    simp [_make_request, hok]

/-- Witness for C2 on a concrete 404 response with body text. -/
theorem c2_error_translation_witness :
    (_make_request ⟨"user", "pw", some (.jStr "tok")⟩ "https://x" "GET"
        none none none true (.response 404 "missing" .jNull)).2 =
      .error (.apiError (apiFailMsg 404 "missing")) ∧
    ContainsSub (apiFailMsg 404 "missing") (toString 404) ∧
    ContainsSub (apiFailMsg 404 "missing") "missing" :=
  (c2_error_translation ⟨"user", "pw", some (.jStr "tok")⟩ "https://x" "GET"
      none none none true rfl).1 404 "missing" .jNull (by decide)

theorem pySet_append_of_lookup_none {fs : List (String × JValue)}
    {k : String} (h : pyLookup fs k = none) (v : JValue) :
    pySet fs k v = fs ++ [(k, v)] := by
  have hf : fs.find? (fun p => p.1 == k) = none := by
    cases hx : fs.find? (fun p => p.1 == k) with
    | none => rfl
    | some p => rw [pyLookup, hx] at h; simp at h
  simp [pySet, hf]

/-- C5: for every field mapping (not itself carrying a `type` key, which
the envelope would overwrite) the POST body is exactly the mapping
wrapped in a command envelope with the fixed command-type tag appended;
in particular `send_command(serial, {"UserAirconSettings.isOn": True})`
posts that one field plus the tag. -/
theorem c5_send_command_envelope (st : ApiState) (serial : String)
    (command : List (String × JValue)) (outcome : HttpOutcome)
    (hok : bearerFalsy st = false)
    (hty : pyLookup command "type" = none) :
    ((send_command st serial command outcome).1.map (fun r => r.method) =
      ["POST"]) ∧
    ((send_command st serial command outcome).1.map (fun r => r.json) =
      [some (.jObj [("command",
        .jObj (command ++ [("type", .jStr CMD_SET_SETTINGS)]))])]) ∧
    commandEnvelope [("UserAirconSettings.isOn", .jBool true)] =
      .jObj [("command", .jObj [("UserAirconSettings.isOn", .jBool true),
        ("type", .jStr CMD_SET_SETTINGS)])] := by
  refine ⟨?_, ?_, by rfl⟩ <;>
    cases outcome with
    | response s t j =>
      by_cases hs : s = 200 <;>
        simp [send_command, _make_request, hok, hs, commandEnvelope,
          pySet_append_of_lookup_none hty]
    | clientError m =>
      simp [send_command, _make_request, hok, commandEnvelope,
        pySet_append_of_lookup_none hty]

/-- Witness for C5 on the concrete example command of the spec. -/
theorem c5_send_command_envelope_witness :
    ((send_command ⟨"user", "pw", some (.jStr "tok")⟩ "SER123"
        [("UserAirconSettings.isOn", .jBool true)]
        (.response 200 "" .jNull)).1.map (fun r => r.json)) =
      [some (.jObj [("command",
        .jObj [("UserAirconSettings.isOn", .jBool true),
          ("type", .jStr CMD_SET_SETTINGS)])])] :=
  ((c5_send_command_envelope ⟨"user", "pw", some (.jStr "tok")⟩ "SER123"
      [("UserAirconSettings.isOn", .jBool true)]
      (.response 200 "" .jNull) rfl rfl).2.1)

theorem make_request_unauth_error_not_auth (st : ApiState)
    (url method : String) (headers : Option (List (String × String)))
    (data : Option (List (String × String))) (json : Option JValue)
    (o : HttpOutcome) (e : ApiException)
    (h : (_make_request st url method headers data json false o).2 = .error e) :
    isAuthError e = false := by
  cases o with
  | response s t j =>
    by_cases hs : s = 200 <;> simp [_make_request, hs] at h
    · rw [← h]; rfl
  | clientError m =>
    simp [_make_request] at h
    rw [← h]; rfl

theorem pyIndex_error_not_auth (v : JValue) (k : String) (e : ApiException)
    (h : pyIndex v k = .error e) : isAuthError e = false := by
  cases v <;> simp [pyIndex] at h <;> try (rw [← h]; rfl)
  case jObj fs =>
    cases hl : pyLookup fs k <;> simp [hl] at h
    rw [← h]; rfl

theorem pairing_token_error_not_auth (st : ApiState) (o : HttpOutcome)
    (e : ApiException) (h : (_request_pairing_token st o).2 = .error e) :
    isAuthError e = false := by
  rw [_request_pairing_token] at h
  rcases hm : _make_request st (API_URL ++ "/api/v0/client/user-devices")
      "POST" (some [("Content-Type", "application/x-www-form-urlencoded")])
      (some [("username", st.username), ("password", st.password),
        ("client", "ios"), ("deviceName", "HomeAssistant"),
        ("deviceUniqueIdentifier", "HomeAssistant")]) none false o
    with ⟨tr, r⟩
  rw [hm] at h
  cases r with
  | error e1 =>
    simp at h
    exact h ▸ make_request_unauth_error_not_auth _ _ _ _ _ _ _ _
      (by rw [hm])
  | ok response =>
    simp at h
    exact pyIndex_error_not_auth _ _ _ h

theorem bearer_token_error_not_auth (st : ApiState) (tok : JValue)
    (o : HttpOutcome) (e : ApiException)
    (h : (_request_bearer_token st tok o).2 = .error e) :
    isAuthError e = false := by
  rw [_request_bearer_token] at h
  rcases hm : _make_request st (API_URL ++ "/api/v0/oauth/token")
      "POST" (some [("Content-Type", "application/x-www-form-urlencoded")])
      (some [("grant_type", "refresh_token"),
        ("refresh_token", pyStr tok), ("client_id", "app")]) none false o
    with ⟨tr, r⟩
  rw [hm] at h
  cases r with
  | error e1 =>
    simp at h
    exact h ▸ make_request_unauth_error_not_auth _ _ _ _ _ _ _ _
      (by rw [hm])
  | ok response =>
    simp at h
    exact pyIndex_error_not_auth _ _ _ h

theorem make_request_trace (st : ApiState) (url method : String)
    (headers : Option (List (String × String)))
    (data : Option (List (String × String))) (json : Option JValue)
    (auth : Bool) (o : HttpOutcome) :
    (_make_request st url method headers data json auth o).1.length ≤ 1 ∧
    ∀ r ∈ (_make_request st url method headers data json auth o).1,
      r.url = url := by
  cases o with
  | response s t j =>
    by_cases ha : (auth && bearerFalsy st) = true <;>
      by_cases hs : s = 200 <;>
        simp [_make_request, ha, hs]
  | clientError m =>
    by_cases ha : (auth && bearerFalsy st) = true <;>
      simp [_make_request, ha]

theorem pairing_token_trace (st : ApiState) (o : HttpOutcome) :
    (_request_pairing_token st o).1.length ≤ 1 ∧
    ∀ r ∈ (_request_pairing_token st o).1,
      r.url = API_URL ++ "/api/v0/client/user-devices" := by
  rw [_request_pairing_token]
  rcases hm : _make_request st (API_URL ++ "/api/v0/client/user-devices")
      "POST" (some [("Content-Type", "application/x-www-form-urlencoded")])
      (some [("username", st.username), ("password", st.password),
        ("client", "ios"), ("deviceName", "HomeAssistant"),
        ("deviceUniqueIdentifier", "HomeAssistant")]) none false o
    with ⟨tr, r⟩
  have := make_request_trace st (API_URL ++ "/api/v0/client/user-devices")
    "POST" (some [("Content-Type", "application/x-www-form-urlencoded")])
    (some [("username", st.username), ("password", st.password),
      ("client", "ios"), ("deviceName", "HomeAssistant"),
      ("deviceUniqueIdentifier", "HomeAssistant")]) none false o
  rw [hm] at this
  cases r <;> simpa using this

theorem bearer_token_trace (st : ApiState) (tok : JValue) (o : HttpOutcome) :
    (_request_bearer_token st tok o).1.length ≤ 1 ∧
    ∀ r ∈ (_request_bearer_token st tok o).1,
      r.url = API_URL ++ "/api/v0/oauth/token" := by
  rw [_request_bearer_token]
  rcases hm : _make_request st (API_URL ++ "/api/v0/oauth/token")
      "POST" (some [("Content-Type", "application/x-www-form-urlencoded")])
      (some [("grant_type", "refresh_token"),
        ("refresh_token", pyStr tok), ("client_id", "app")]) none false o
    with ⟨tr, r⟩
  have := make_request_trace st (API_URL ++ "/api/v0/oauth/token")
    "POST" (some [("Content-Type", "application/x-www-form-urlencoded")])
    (some [("grant_type", "refresh_token"),
      ("refresh_token", pyStr tok), ("client_id", "app")]) none false o
  rw [hm] at this
  cases r <;> simpa using this

theorem filter_url_nil {tr : List HttpRequest} {U V : String}
    (hu : ∀ r ∈ tr, r.url = V) (hne : V ≠ U) :
    tr.filter (fun r => r.url == U) = [] := by
  induction tr with
  | nil => rfl
  | cons r rest ih =>
    have hr : r.url = V := hu r (by simp)
    have hrest := ih (fun x hx => hu x (List.mem_cons_of_mem _ hx))
    simp [List.filter_cons, hr, hne, hrest]

theorem filter_pair_counts {tr1 tr2 : List HttpRequest} {U1 U2 : String}
    (hu1 : ∀ r ∈ tr1, r.url = U1) (hu2 : ∀ r ∈ tr2, r.url = U2)
    (hl1 : tr1.length ≤ 1) (hl2 : tr2.length ≤ 1) (hne : U1 ≠ U2) :
    ((tr1 ++ tr2).filter (fun r => r.url == U1)).length ≤ 1 ∧
    ((tr1 ++ tr2).filter (fun r => r.url == U2)).length ≤ 1 := by
  constructor
  · rw [List.filter_append, filter_url_nil hu2 (Ne.symm hne)]
    simpa using le_trans (List.length_filter_le _ tr1) hl1
  · rw [List.filter_append, filter_url_nil hu1 hne]
    simpa using le_trans (List.length_filter_le _ tr2) hl2


/-- C4 (amended): every failure of either authentication step makes
`authenticate()` re-raise the failing step's own exception unchanged —
an `ApiError` for HTTP or network failures, never an
`AuthenticationError` — and neither step is ever retried: at most one
request is issued to the pairing endpoint and at most one to the
token endpoint per call. -/
theorem c4_authenticate_passthrough_no_retry (st : ApiState)
    (o1 o2 : HttpOutcome) :
    (∀ e, (_request_pairing_token st o1).2 = .error e →
      (authenticate st o1 o2).2.2 = .error e) ∧
    (∀ tok e, (_request_pairing_token st o1).2 = .ok tok →
      (_request_bearer_token st tok o2).2 = .error e →
      (authenticate st o1 o2).2.2 = .error e) ∧
    (∀ e, (authenticate st o1 o2).2.2 = .error e → isAuthError e = false) ∧
    ((authenticate st o1 o2).2.1.filter
      (fun r => r.url == API_URL ++ "/api/v0/client/user-devices")).length ≤ 1 ∧
    ((authenticate st o1 o2).2.1.filter
      (fun r => r.url == API_URL ++ "/api/v0/oauth/token")).length ≤ 1 := by
  have hne : (API_URL ++ "/api/v0/client/user-devices") ≠
      (API_URL ++ "/api/v0/oauth/token") := by decide
  rcases h1 : _request_pairing_token st o1 with ⟨tr1, r1⟩
  have htr1 := pairing_token_trace st o1
  rw [h1] at htr1
  obtain ⟨hlen1, hurl1⟩ := htr1
  cases r1 with
  | error e1 =>
    have hauth : authenticate st o1 o2 = (st, tr1, .error e1) := by
      simp [authenticate, h1]
    refine ⟨?_, ?_, ?_, ?_, ?_⟩
    · intro e he
      simp at he
      rw [hauth, he]
    · intro tok e hok
      simp at hok
    · intro e he
      rw [hauth] at he
      simp at he
      subst he
      exact pairing_token_error_not_auth st o1 _ (by rw [h1])
    · rw [hauth]
      simpa using le_trans (List.length_filter_le _ tr1) hlen1
    · rw [hauth]
      simp [filter_url_nil hurl1 hne]
  | ok tok =>
    rcases h2 : _request_bearer_token st tok o2 with ⟨tr2, r2⟩
    have htr2 := bearer_token_trace st tok o2
    rw [h2] at htr2
    obtain ⟨hlen2, hurl2⟩ := htr2
    have hcounts := filter_pair_counts hurl1 hurl2 hlen1 hlen2 hne
    cases r2 with
    | error e2 =>
      have hauth : authenticate st o1 o2 = (st, tr1 ++ tr2, .error e2) := by
        simp [authenticate, h1, h2]
      refine ⟨?_, ?_, ?_, ?_, ?_⟩
      · intro e he
        simp at he
      · intro tok' e hok herr
        simp at hok
        subst hok
        rw [h2] at herr
        simp at herr
        rw [hauth, herr]
      · intro e he
        rw [hauth] at he
        simp at he
        subst he
        exact bearer_token_error_not_auth st tok o2 _ (by rw [h2])
      · rw [hauth]
        exact hcounts.1
      · rw [hauth]
        exact hcounts.2
    | ok tk =>
      have hauth : authenticate st o1 o2 =
          ({ st with bearer_token := some tk }, tr1 ++ tr2, .ok ()) := by
        simp [authenticate, h1, h2]
      refine ⟨?_, ?_, ?_, ?_, ?_⟩
      · intro e he
        simp at he
      · intro tok' e hok herr
        simp at hok
        subst hok
        rw [h2] at herr
        simp at herr
      · intro e he
        rw [hauth] at he
        simp at he
      · rw [hauth]
        exact hcounts.1
      · rw [hauth]
        exact hcounts.2

/-- Witness for C4 (amended): a concrete 401 on the pairing step passes
through as the `ApiError` built by the request helper. -/
theorem c4_authenticate_passthrough_witness :
    (authenticate ⟨"user", "pw", none⟩ (.response 401 "denied" .jNull)
        (.response 200 "" .jNull)).2.2 =
      .error (.apiError (apiFailMsg 401 "denied")) :=
  (c4_authenticate_passthrough_no_retry ⟨"user", "pw", none⟩
      (.response 401 "denied" .jNull) (.response 200 "" .jNull)).1
    (.apiError (apiFailMsg 401 "denied")) rfl

/-- C4 counterexample: at a concrete failing pairing step the exception
raised by `authenticate()` is an `ApiError`, not the
`AuthenticationError` the claim requires. -/
theorem c4_counterexample :
    (authenticate ⟨"user", "pw", none⟩ (.response 401 "denied" .jNull)
        (.response 200 "" .jNull)).2.2 =
      .error (.apiError (apiFailMsg 401 "denied")) ∧
    isAuthError (.apiError (apiFailMsg 401 "denied")) = false :=
  ⟨rfl, rfl⟩

/-- C9: whenever `authenticate()` raises, the stored bearer token after
the call is exactly the one held before the call: a partially completed
authentication never installs or clobbers a token. -/
theorem c9_bearer_unchanged_on_failure (st : ApiState) (o1 o2 : HttpOutcome)
    (e : ApiException) (h : (authenticate st o1 o2).2.2 = .error e) :
    (authenticate st o1 o2).1.bearer_token = st.bearer_token := by
  rcases h1 : _request_pairing_token st o1 with ⟨tr1, r1⟩
  cases r1 with
  | error e1 =>
    simp [authenticate, h1]
  | ok tok =>
    rcases h2 : _request_bearer_token st tok o2 with ⟨tr2, r2⟩
    cases r2 with
    | error e2 =>
      simp [authenticate, h1, h2]
    | ok tk =>
      rw [authenticate] at h
      rw [h1] at h
      simp [h2] at h

/-- Witness for C9: a failing bearer-token step at a client that already
holds a token leaves that token in place. -/
theorem c9_bearer_unchanged_witness :
    (authenticate ⟨"user", "pw", some (.jStr "old")⟩
        (.response 200 "" (.jObj [("pairingToken", .jStr "pt")]))
        (.response 500 "boom" .jNull)).1.bearer_token =
      some (.jStr "old") :=
  c9_bearer_unchanged_on_failure ⟨"user", "pw", some (.jStr "old")⟩
    (.response 200 "" (.jObj [("pairingToken", .jStr "pt")]))
    (.response 500 "boom" .jNull)
    (.apiError (apiFailMsg 500 "boom")) rfl

/-- C6 counterexample: a listed system with no fields at all parses with
`name = "Unknown Device"`, not `"Unknown"` as the claim states for all
three fields. -/
theorem c6_counterexample :
    (get_devices ⟨"user", "pw", some (.jStr "tok")⟩ (.response 200 ""
        (.jObj [("_embedded",
          .jObj [("ac-system", .jArr [.jObj []])])]))).2 =
      .ok [⟨.jStr "Unknown", .jStr "Unknown Device", .jStr "Unknown"⟩] ∧
    (JValue.jStr "Unknown Device" = .jStr "Unknown" → False) := by
  refine ⟨rfl, ?_⟩
  intro h
  injection h with h'
  exact absurd h' (by decide)

/-- C6 (amended): `get_devices()` on a response whose
`_embedded.ac-system` list is empty, or whose `_embedded` or `ac-system`
key is absent, returns an empty sequence; the device list is the
per-system parse of the listed systems, and for each listed system a
missing `serial` or `type` defaults to `"Unknown"` while a missing
`description` (the source of the `name` field) defaults to
`"Unknown Device"`. -/
theorem c6_get_devices_defaults (st : ApiState)
    (hok : bearerFalsy st = false) :
    (∀ text fs, pyLookup fs "_embedded" = none →
      (get_devices st (.response 200 text (.jObj fs))).2 = .ok []) ∧
    (∀ text fs efs, pyLookup fs "_embedded" = some (.jObj efs) →
      pyLookup efs "ac-system" = none →
      (get_devices st (.response 200 text (.jObj fs))).2 = .ok []) ∧
    (∀ text fs efs, pyLookup fs "_embedded" = some (.jObj efs) →
      pyLookup efs "ac-system" = some (.jArr []) →
      (get_devices st (.response 200 text (.jObj fs))).2 = .ok []) ∧
    (∀ text fs efs systems, pyLookup fs "_embedded" = some (.jObj efs) →
      pyLookup efs "ac-system" = some (.jArr systems) →
      (get_devices st (.response 200 text (.jObj fs))).2 =
        systems.mapM parse_system) ∧
    (∀ sfs d, parse_system (.jObj sfs) = .ok d →
      (pyLookup sfs "serial" = none → d.serial = .jStr "Unknown") ∧
      (pyLookup sfs "type" = none → d.type = .jStr "Unknown") ∧
      (pyLookup sfs "description" = none → d.name = .jStr "Unknown Device")) := by
  refine ⟨?_, ?_, ?_, ?_, ?_⟩
  · intro text fs h
    simp [get_devices, _make_request, hok, pyContains, h,
      Bind.bind, Except.bind, pure, Except.pure]
  · intro text fs efs h1 h2
    simp [get_devices, _make_request, hok, pyContains, pyIndex, h1, h2,
      Bind.bind, Except.bind, pure, Except.pure]
  · intro text fs efs h1 h2
    simp [get_devices, _make_request, hok, pyContains, pyIndex, pyIter,
      h1, h2, Bind.bind, Except.bind, pure, Except.pure, List.mapM,
      List.mapM.loop]
  · intro text fs efs systems h1 h2
    simp [get_devices, _make_request, hok, pyContains, pyIndex, pyIter,
      h1, h2, Bind.bind, Except.bind, pure, Except.pure, List.mapM]
  · intro sfs d h
    simp [parse_system, pyGetAttrGet, Bind.bind, Except.bind,
      pure, Except.pure] at h
    refine ⟨?_, ?_, ?_⟩ <;> intro hl <;>
      simp [← h, pyGetD, hl]

/-- Witness for C6 (amended) on a concrete response with an empty
system list. -/
theorem c6_get_devices_defaults_witness :
    (get_devices ⟨"user", "pw", some (.jStr "tok")⟩ (.response 200 ""
        (.jObj [("_embedded", .jObj [("ac-system", .jArr [])])]))).2 =
      .ok [] :=
  ((c6_get_devices_defaults ⟨"user", "pw", some (.jStr "tok")⟩ rfl).2.2.1)
    "" [("_embedded", .jObj [("ac-system", .jArr [])])]
    [("ac-system", .jArr [])] rfl rfl

/-- C3 counterexample: on the single climate entity
(`custom_components/actron_air_neo/climate.py`) with the system off,
setting a target temperature does send a setpoint command — the heat
setpoint — where the claim requires that no setpoint command be sent. -/
theorem c3_counterexample :
    ((neo_set_temperature "SER123" ⟨false, .off⟩ (some (.jNum 24))
        (.ok .jNull) (.ok ())).1.any isSendCommand) = true ∧
    (neo_set_temperature "SER123" ⟨false, .off⟩ (some (.jNum 24))
        (.ok .jNull) (.ok ())).1 =
      [.sendCommand "SER123" [("TemperatureSetpoint_Heat_oC", .jNum 24)],
       .requestRefresh] :=
  ⟨rfl, rfl⟩

/-- C3 (amended): setting a target temperature writes the cool setpoint
field when the current HVAC mode is cooling and the heat setpoint field
when it is heating, on both climate entities; the zoned entity
(`custom_components/actron/climate.py`) sends no setpoint command when
the current mode is neither cooling nor heating, but the single entity
(`custom_components/actron_air_neo/climate.py`) passes
`is_cooling = false` to the coordinator in every non-cooling mode, so in
off or fan-only mode it writes the heat setpoint instead of nothing. -/
theorem c3_setpoint_field_selection :
    (∀ dev zone main t s r, zoned_hvac_mode main = .cool →
      ((zoned_set_temperature dev zone main (some t) s r).1.filter
        isSendCommand) =
        [.sendCommand dev
          [("RemoteZoneInfo[" ++ zone ++ "].TemperatureSetpoint_Cool_oC", t)]]) ∧
    (∀ dev zone main t s r, zoned_hvac_mode main = .heat →
      ((zoned_set_temperature dev zone main (some t) s r).1.filter
        isSendCommand) =
        [.sendCommand dev
          [("RemoteZoneInfo[" ++ zone ++ "].TemperatureSetpoint_Heat_oC", t)]]) ∧
    (∀ dev zone main t s r, zoned_hvac_mode main ≠ .cool →
      zoned_hvac_mode main ≠ .heat →
      ((zoned_set_temperature dev zone main (some t) s r).1.filter
        isSendCommand) = []) ∧
    (∀ dev main t s r, neo_hvac_mode main = .cool →
      ((neo_set_temperature dev main (some t) s r).1.filter isSendCommand) =
        [.sendCommand dev [("TemperatureSetpoint_Cool_oC", t)]]) ∧
    (∀ dev main t s r, neo_hvac_mode main ≠ .cool →
      ((neo_set_temperature dev main (some t) s r).1.filter isSendCommand) =
        [.sendCommand dev [("TemperatureSetpoint_Heat_oC", t)]]) := by
  refine ⟨?_, ?_, ?_, ?_, ?_⟩
  · intro dev zone main t s r h
    cases s <;> cases r <;>
      simp [zoned_set_temperature, h, thenRefresh, isSendCommand]
  · intro dev zone main t s r h
    have hne : zoned_hvac_mode main ≠ .cool := by rw [h]; decide
    cases s <;> cases r <;>
      simp [zoned_set_temperature, h, hne, thenRefresh, isSendCommand]
  · intro dev zone main t s r h1 h2
    cases s <;> cases r <;>
      simp [zoned_set_temperature, h1, h2, thenRefresh, isSendCommand]
  · intro dev main t s r h
    cases s <;> cases r <;>
      simp [neo_set_temperature, coordinator_set_temperature,
        coordinator_send_command, h, thenRefresh, isSendCommand]
  · intro dev main t s r h
    cases s <;> cases r <;>
      simp [neo_set_temperature, coordinator_set_temperature,
        coordinator_send_command, h, thenRefresh, isSendCommand]

/-- Witness for C3 (amended): the zoned entity in cooling mode with a
successful command and refresh writes exactly the zone cool setpoint. -/
theorem c3_setpoint_field_selection_witness :
    ((zoned_set_temperature "SER123" "z1" ⟨true, "COOL", "AUTO", false⟩
        (some (.jNum 22)) (.ok .jNull) (.ok ())).1.filter isSendCommand) =
      [.sendCommand "SER123"
        [("RemoteZoneInfo[z1].TemperatureSetpoint_Cool_oC", .jNum 22)]] := by
  have := c3_setpoint_field_selection.1 "SER123" "z1"
    ⟨true, "COOL", "AUTO", false⟩ (.jNum 22) (.ok .jNull) (.ok ())
    (by decide)
  simpa using this

/-- C7: for each zoned climate-entity command operation the command is
sent before any refresh is requested (no command event follows a refresh
event), a refresh is requested after every successful command, the
events are independent of the refresh outcome (so a failed refresh rolls
nothing back), and at most one command is ever sent per operation. -/
theorem c7_command_before_refresh :
    (∀ dev zone main temp s r,
      noSendAfterRefresh (zoned_set_temperature dev zone main temp s r).1 = true ∧
      (∀ j, s = .ok j →
        (zoned_set_temperature dev zone main temp s r).1.any isRefresh = true) ∧
      (zoned_set_temperature dev zone main temp s r).1 =
        (zoned_set_temperature dev zone main temp s (.ok ())).1 ∧
      ((zoned_set_temperature dev zone main temp s r).1.filter
        isSendCommand).length ≤ 1) ∧
    (∀ dev hm s r,
      noSendAfterRefresh (zoned_set_hvac_mode dev hm s r).1 = true ∧
      (∀ j, s = .ok j →
        (zoned_set_hvac_mode dev hm s r).1.any isRefresh = true) ∧
      (zoned_set_hvac_mode dev hm s r).1 =
        (zoned_set_hvac_mode dev hm s (.ok ())).1 ∧
      ((zoned_set_hvac_mode dev hm s r).1.filter isSendCommand).length ≤ 1) ∧
    (∀ dev fm s r,
      noSendAfterRefresh (zoned_set_fan_mode dev fm s r).1 = true ∧
      (∀ j, s = .ok j →
        (zoned_set_fan_mode dev fm s r).1.any isRefresh = true) ∧
      (zoned_set_fan_mode dev fm s r).1 =
        (zoned_set_fan_mode dev fm s (.ok ())).1 ∧
      ((zoned_set_fan_mode dev fm s r).1.filter isSendCommand).length ≤ 1) := by
  refine ⟨?_, ?_, ?_⟩
  · intro dev zone main temp s r
    cases temp with
    | none =>
      cases s <;> cases r <;>
        simp [zoned_set_temperature, thenRefresh, noSendAfterRefresh,
          isSendCommand, isRefresh]
    | some t =>
      by_cases h1 : zoned_hvac_mode main = .cool <;>
        by_cases h2 : zoned_hvac_mode main = .heat <;>
          cases s <;> cases r <;>
            simp [zoned_set_temperature, h1, h2, thenRefresh,
              noSendAfterRefresh, isSendCommand, isRefresh]
  · intro dev hm s r
    cases s <;> cases r <;>
      simp [zoned_set_hvac_mode, thenRefresh, noSendAfterRefresh,
        isSendCommand, isRefresh]
  · intro dev fm s r
    cases s <;> cases r <;>
      simp [zoned_set_fan_mode, thenRefresh, noSendAfterRefresh,
        isSendCommand, isRefresh]

/-- Witness for C7: a successful fan-mode command followed by a failing
refresh still shows the command first and exactly once. -/
theorem c7_command_before_refresh_witness :
    noSendAfterRefresh (zoned_set_fan_mode "SER123" "HIGH" (.ok .jNull)
        (.error (.refresh "poll failed"))).1 = true ∧
    (zoned_set_fan_mode "SER123" "HIGH" (.ok .jNull)
        (.error (.refresh "poll failed"))).1.any isRefresh = true := by
  have := (c7_command_before_refresh).2.2 "SER123" "HIGH" (.ok .jNull)
    (.error (.refresh "poll failed"))
  exact ⟨this.1, this.2.1 .jNull rfl⟩

/-- C8: when the status fetch raises, each zone sensor update swallows
the exception and leaves the held state unchanged (the exception-free
return type of `sensor_update` reflects that nothing is re-raised),
while every zoned climate command method re-raises a failing command to
its caller. -/
theorem c8_error_propagation_policy :
    (∀ st zid e, temperature_sensor_update st zid (.error e) = st) ∧
    (∀ st zid e, humidity_sensor_update st zid (.error e) = st) ∧
    (∀ st zid e, battery_sensor_update st zid (.error e) = st) ∧
    (∀ dev fm e r, zoned_set_fan_mode dev fm (.error e) r =
      ([.sendCommand dev [("UserAirconSettings.FanMode", .jStr fm)]],
        .error (.api e))) ∧
    (∀ dev hm e r, (zoned_set_hvac_mode dev hm (.error e) r).2 =
      .error (.api e)) ∧
    (∀ dev zone main t e r, zoned_hvac_mode main = .cool →
      (zoned_set_temperature dev zone main (some t) (.error e) r).2 =
        .error (.api e)) := by
  refine ⟨?_, ?_, ?_, ?_, ?_, ?_⟩
  · intro st zid e
    simp [temperature_sensor_update, sensor_update]
  · intro st zid e
    simp [humidity_sensor_update, sensor_update]
  · intro st zid e
    simp [battery_sensor_update, sensor_update]
  · intro dev fm e r
    simp [zoned_set_fan_mode]
  · intro dev hm e r
    simp [zoned_set_hvac_mode]
  · intro dev zone main t e r h
    simp [zoned_set_temperature, h]

/-- Witness for C8: a failing temperature command in cooling mode
re-raises, while the same failure leaves a sensor state untouched. -/
theorem c8_error_propagation_policy_witness :
    (zoned_set_temperature "SER123" "z1" ⟨true, "COOL", "AUTO", false⟩
        (some (.jNum 22)) (.error (.apiError "boom")) (.ok ())).2 =
      .error (.api (.apiError "boom")) ∧
    temperature_sensor_update (.jNum 21) (.jStr "z1")
        (.error (.apiError "boom")) = .jNum 21 := by
  refine ⟨?_, ?_⟩
  · exact c8_error_propagation_policy.2.2.2.2.2 "SER123" "z1"
      ⟨true, "COOL", "AUTO", false⟩ (.jNum 22) (.apiError "boom") (.ok ())
      (by decide)
  · exact c8_error_propagation_policy.1 (.jNum 21) (.jStr "z1")
      (.apiError "boom")

/-- C10: `_format_uptime` is total: every input that is not a
non-negative number yields `"Unknown"`, and every non-negative number of
seconds yields its exact base-86400/3600/60 decomposition into days,
hours, minutes and seconds with zero-valued components omitted, except
that an all-zero input yields `"0s"`. -/
theorem c10_format_uptime_total :
    (∀ s, _format_uptime (.jStr s) = "Unknown") ∧
    (_format_uptime .jNull = "Unknown") ∧
    (∀ xs, _format_uptime (.jArr xs) = "Unknown") ∧
    (∀ fs, _format_uptime (.jObj fs) = "Unknown") ∧
    (∀ n : Int, n < 0 → _format_uptime (.jNum n) = "Unknown") ∧
    (_format_uptime (.jNum 0) = "0s") ∧
    (∀ d h m s : Nat, h < 24 → m < 60 → s < 60 →
      _format_uptime (.jNum (((d * 24 + h) * 60 + m) * 60 + s : Nat)) =
        String.intercalate " "
          ((if 0 < d then [toString d ++ "d"] else []) ++
           (if 0 < h then [toString h ++ "h"] else []) ++
           (if 0 < m then [toString m ++ "m"] else []) ++
           (if 0 < s ∨ (d = 0 ∧ h = 0 ∧ m = 0) then [toString s ++ "s"]
            else []))) := by
  refine ⟨?_, ?_, ?_, ?_, ?_, ?_, ?_⟩
  · intro s; simp [_format_uptime, pyIsNumber]
  · simp [_format_uptime, pyIsNumber]
  · intro xs; simp [_format_uptime, pyIsNumber]
  · intro fs; simp [_format_uptime, pyIsNumber]
  · intro n hn; simp [_format_uptime, pyIsNumber, pyIntVal, hn]
  · rfl
  · intro d h m s hh hm hs
    have hcond : ¬(pyIsNumber
          (.jNum (((d * 24 + h) * 60 + m) * 60 + s : Nat)) = false ∨
        pyIntVal (.jNum (((d * 24 + h) * 60 + m) * 60 + s : Nat)) < 0) := by
      simp only [pyIsNumber, pyIntVal]
      simp only [not_or]
      refine ⟨by simp, by omega⟩
    unfold _format_uptime
    rw [if_neg hcond]
    simp only [pyIntVal, Int.toNat_natCast]
    have e1 : (((d * 24 + h) * 60 + m) * 60 + s) / 86400 = d := by omega
    have e2 : (((d * 24 + h) * 60 + m) * 60 + s) % 86400 / 3600 = h := by
      omega
    have e3 : (((d * 24 + h) * 60 + m) * 60 + s) % 86400 % 3600 / 60 = m := by
      omega
    have e4 : (((d * 24 + h) * 60 + m) * 60 + s) % 86400 % 3600 % 60 = s := by
      omega
    simp only [e1, e2, e3, e4]
    rcases Nat.eq_zero_or_pos d with hd | hd <;>
      rcases Nat.eq_zero_or_pos h with hh0 | hh0 <;>
        rcases Nat.eq_zero_or_pos m with hm0 | hm0 <;>
          rcases Nat.eq_zero_or_pos s with hs0 | hs0 <;>
            simp_all [Nat.pos_iff_ne_zero]

/-- Witness for C10: one day, two hours and five seconds render with the
zero minutes component omitted. -/
theorem c10_format_uptime_total_witness :
    _format_uptime (.jNum 93605) = "1d 2h 5s" := by
  have := c10_format_uptime_total.2.2.2.2.2.2 1 2 0 5
    (by decide) (by decide) (by decide)
  simpa using this
